import Mathlib

/-!
Verification of the mubsub-es channel core (`lib/channel.js`).

The development shallowly embeds the transport-selection, bootstrap,
dispatch, polling and lifecycle logic of the `Channel` class.  A store
collection is a list of documents in natural (insertion) order; the
store assigns monotonically increasing numeric identifiers on insert.
-/

namespace Mubsub

/-- A stored document (envelope).  Mirrors the objects inserted by
`publish` (`{event, message, _ts}`, channel.js line 83) and by the
bootstrap dummy insert (`{dummy: true}`, line 461). -/
structure Doc where
  _id : Nat
  event : Option String := none
  message : Option String := none
  _ts : Option Nat := none
  dummy : Bool := false
  deriving Repr, DecidableEq

/-- Raw constructor options, before defaulting (channel.js lines 20-34).
`none` models an absent / non-number / non-boolean field. -/
structure RawOptions where
  recreate : Option Bool := none
  retryInterval : Option Int := none
  pollInterval : Option Int := none
  pollTtlSeconds : Option Int := none
  mode : Option String := none
  deriving Repr, DecidableEq

/-- Normalized options (channel.js lines 23-34). -/
structure Options where
  recreate : Bool
  retryInterval : Int
  pollInterval : Int
  pollTtlSeconds : Int
  mode : String
  deriving Repr, DecidableEq

/-- Embedding of the constructor's option defaulting (channel.js lines 23-34):
each numeric/boolean field keeps a well-typed value and otherwise takes the
default; `mode` is kept only when it is one of auto/capped/polling. -/
def normalizeOptions (o : RawOptions) : Options :=
  { recreate := o.recreate.getD true
    retryInterval := o.retryInterval.getD 200
    pollInterval := o.pollInterval.getD 1000
    pollTtlSeconds := o.pollTtlSeconds.getD 0
    mode :=
      match o.mode with
      | some m => if m == "auto" || m == "capped" || m == "polling" then m else "auto"
      | none => "auto" }

/-- The next store-assigned identifier: strictly above every identifier
already present (models MongoDB's monotone `_id` assignment at insert). -/
def nextId (coll : List Doc) : Nat :=
  (coll.map (fun d => d._id)).foldl max 0 + 1

/-- Embedding of `collection.find(filter).hint({$natural: -1}).limit(1).next()`
(channel.js lines 439-444): the last document in natural order matching
the filter, which is `{_id: latest._id}` when a latest document was
passed in and `{}` otherwise (line 440). -/
def findNaturalDesc (filt : Option Nat) (coll : List Doc) : Option Doc :=
  match filt with
  | none => coll.getLast?
  | some i => (coll.filter (fun d => d._id == i)).getLast?

/-- Embedding of `collection.findOne({_id: {$gt: i}}, {sort: {_id: -1}})`
(channel.js line 448): the document with the greatest identifier among
those strictly above `i`, if any. -/
def maxByIdAbove (i : Nat) : List Doc → Option Doc
  | [] => none
  | d :: rest =>
    match maxByIdAbove i rest with
    | none => if i < d._id then some d else none
    | some m =>
      if i < d._id then
        (if m._id < d._id then some d else some m)
      else some m

/-- Result of the bootstrap lookup `Channel.latest`. -/
structure LatestResult where
  /-- The starting watermark adopted by the listener. -/
  watermark : Doc
  /-- The collection contents after the lookup (a dummy may be inserted). -/
  coll : List Doc
  /-- Whether the anchor/dummy document was inserted. -/
  insertedDummy : Bool
  deriving Repr, DecidableEq

/-- Embedding of `Channel.latest` (channel.js lines 430-480): find the
newest document in reverse natural order; if found, additionally adopt a
document with a strictly greater `_id` when one exists (lines 447-456).
If the collection is empty: with `insertDummy` insert `{dummy: true}` and
adopt its assigned identifier (lines 459-467), otherwise adopt the
sentinel `{_id: 0}` (lines 457-458). -/
def latest (latestArg : Option Nat) (insertDummy : Bool) (coll : List Doc) :
    LatestResult :=
  match findNaturalDesc latestArg coll with
  | some doc =>
    match maxByIdAbove doc._id coll with
    | some record => ⟨record, coll, false⟩
    | none => ⟨doc, coll, false⟩
  | none =>
    if insertDummy then
      let d : Doc := { _id := nextId coll, dummy := true }
      ⟨d, coll ++ [d], true⟩
    else
      ⟨{ _id := 0 }, coll, false⟩

/-- Payload of an emitted channel event. -/
inductive Payload where
  | msg (m : Option String)
  | doc (d : Doc)
  | err (e : String)
  deriving Repr, DecidableEq

/-- Events emitted for one yielded document, identical in the tailable
listener (channel.js lines 331-337) and the polling listener (lines
394-399): when the document carries an event name, emit that name and
then emit `message` with the same payload; always emit `document`. -/
def dispatchDoc (d : Doc) : List (String × Payload) :=
  (match d.event with
   | some e => [(e, Payload.msg d.message), ("message", Payload.msg d.message)]
   | none => []) ++ [("document", Payload.doc d)]

/-- Payloads an `EventEmitter` listener registered for `name` receives
from a list of emitted events, in emission order. -/
def deliveriesTo (emits : List (String × Payload)) (name : String) :
    List Payload :=
  (emits.filter (fun p => p.1 == name)).map (fun p => p.2)

/-- Embedding of `Channel.subscribe`'s event-name resolution (channel.js
lines 106-109): when the event argument is omitted (a function is passed
first), the registered event name is the literal string `message`. -/
def subscribeEventName (event : Option String) : String :=
  match event with
  | some e => e
  | none => "message"

/-- The query filter both listeners use for new documents:
`{_id: {$gt: watermark}}` (channel.js line 312 for the tailable cursor,
line 388 for the polling fetch). -/
def cursorSelects (w : Nat) (d : Doc) : Bool :=
  w < d._id

/-- Documents yielded by the tailable cursor over the current collection
contents: natural order, filtered by `{_id: {$gt: w}}` with
`hint({$natural: 1})` (channel.js lines 311-319). -/
def tailableFetch (w : Nat) (coll : List Doc) : List Doc :=
  coll.filter (cursorSelects w)

/-- Insertion into a list sorted by ascending `_id`. -/
def insertById (d : Doc) : List Doc → List Doc
  | [] => [d]
  | x :: xs => if d._id ≤ x._id then d :: x :: xs else x :: insertById d xs

/-- Embedding of `.sort({_id: 1})` (channel.js line 389). -/
def sortById (l : List Doc) : List Doc :=
  l.foldr insertById []

/-- One polling fetch:
`collection.find({_id: {$gt: w}}).sort({_id: 1}).toArray()`
(channel.js lines 387-390). -/
def pollFetch (w : Nat) (coll : List Doc) : List Doc :=
  sortById (coll.filter (cursorSelects w))

/-- The watermark after dispatching a batch: `cursor = doc` is executed
for each fetched document in order (channel.js line 394), so it ends at
the last document's identifier, or stays at `w` when the batch is empty. -/
def lastIdOr (w : Nat) (docs : List Doc) : Nat :=
  docs.foldl (fun _ d => d._id) w

/-- Outcome of one polling tick. `reschedule = some t` models
`self.pollingTimer = setTimeout(poll, t)`; `none` models returning
without scheduling. -/
structure PollTick where
  emits : List (String × Payload)
  watermark : Nat
  reschedule : Option Int
  deriving Repr, DecidableEq

/-- The `.then` continuation of the polling fetch (channel.js lines
391-404): dispatch every fetched document in order, advance the
watermark, and re-arm the timer with the constant `pollInterval`.
Note that this continuation does not consult `self.closed`. -/
def pollOnFetchSuccess (fetched : List Doc) (w : Nat) (pollInterval : Int) :
    PollTick :=
  { emits := (fetched.map dispatchDoc).flatten
    watermark := lastIdOr w fetched
    reschedule := some pollInterval }

/-- The `.catch` continuation of the polling fetch (channel.js lines
405-408): emit `error` and re-arm the timer with the same constant
`pollInterval`.  It does not consult `self.closed` either. -/
def pollOnFetchError (e : String) (w : Nat) (pollInterval : Int) : PollTick :=
  { emits := [("error", Payload.err e)]
    watermark := w
    reschedule := some pollInterval }

/-- One full polling tick (`poll`, channel.js lines 382-409): the guard
`self.closed || self.connection.destroyed` is checked at the start of
the tick (lines 383-385); otherwise the fetch runs and resolves to its
success or error continuation (`fetchErr` selects which). -/
def pollTick (closed destroyed : Bool) (coll : List Doc)
    (fetchErr : Option String) (w : Nat) (pollInterval : Int) : PollTick :=
  if closed || destroyed then
    { emits := [], watermark := w, reschedule := none }
  else
    match fetchErr with
    | some e => pollOnFetchError e w pollInterval
    | none => pollOnFetchSuccess (pollFetch w coll) w pollInterval

/-- The channel state relevant to lifecycle claims (channel.js lines
42-47): the `closed` flag, the pending poll timer, and `listening`
(the collection once `ready` fired, line 349 / 379). -/
structure Channel where
  closed : Bool := false
  pollingTimer : Option Int := none
  listening : Option (List Doc) := none
  deriving Repr, DecidableEq

/-- Embedding of `Channel.close` (channel.js lines 59-67): set the
closed flag and clear any pending polling timer. -/
def Channel.close (c : Channel) : Channel :=
  { c with closed := true, pollingTimer := none }

/-- Outcome of invoking a `Channel.handle`-wrapped callback. -/
inductive HandleOutcome where
  /-- The `closed || destroyed` guard returned early: nothing happens. -/
  | noop
  /-- The recovery function consumed the error: nothing is emitted. -/
  | recovered
  /-- The `error` event was emitted and `exit` suppressed the callback. -/
  | emitErrorOnly (e : String)
  /-- The `error` event was emitted and the callback still ran. -/
  | emitErrorThenCallback (e : String)
  /-- The callback ran normally. -/
  | callbackRun
  deriving Repr, DecidableEq

/-- Embedding of the function returned by `Channel.handle` (channel.js
lines 499-514): return early when the channel is closed or the
connection destroyed; on an error, try the recovery function, else emit
`error`; with `exit` set stop there, otherwise run the callback. -/
def handle (closed destroyed exit : Bool) (recoveryResult : Option Bool)
    (err : Option String) : HandleOutcome :=
  if closed || destroyed then HandleOutcome.noop
  else
    match err with
    | some e =>
      if recoveryResult.getD false then HandleOutcome.recovered
      else if exit then HandleOutcome.emitErrorOnly e
      else HandleOutcome.emitErrorThenCallback e
    | none => HandleOutcome.callbackRun

/-- Result of `Channel.publish` (channel.js lines 78-93) as seen by its
caller. -/
inductive PublishResult where
  /-- The channel was ready: the envelope was inserted and the callback
  invoked with the assigned identifier. -/
  | inserted (newColl : List Doc) (assignedId : Nat)
  /-- The channel was ready but the insert failed: the callback was
  invoked with the error. -/
  | callbackError (e : String)
  /-- Not ready yet: the request waits on the `ready` event
  (`this.once('ready', callback)`, channel.js line 528). -/
  | queued
  deriving Repr, DecidableEq

/-- Embedding of `Channel.publish` composed with `Channel.ready`
(channel.js lines 78-93 and 524-532): when `listening` is set the
callback runs at once and inserts `{event, message, _ts}`; the assigned
identifier (or the insert error, modelled by `insertErr`) is passed to
the caller's callback.  Neither function reads `closed`. -/
def publish (c : Channel) (event : String) (message : Option String)
    (ts : Nat) (insertErr : Option String) : PublishResult :=
  match c.listening with
  | some coll =>
    match insertErr with
    | some e => PublishResult.callbackError e
    | none =>
      let d : Doc := { _id := nextId coll, event := some event,
                       message := message, _ts := some ts }
      PublishResult.inserted (coll ++ [d]) d._id
  | none => PublishResult.queued

/-- Boolean prefix test on character lists. -/
def isPrefixOfB : List Char → List Char → Bool
  | [], _ => true
  | _ :: _, [] => false
  | a :: as, b :: bs => a == b && isPrefixOfB as bs

/-- Boolean contiguous-subsequence test on character lists. -/
def containsSeq (pat : List Char) : List Char → Bool
  | [] => isPrefixOfB pat []
  | b :: bs => isPrefixOfB pat (b :: bs) || containsSeq pat bs

/-- Embedding of JavaScript's `String.includes`: substring containment. -/
def strContains (s pat : String) : Bool :=
  containsSeq pat.toList s.toList

/-- ASCII lowercasing of one character (the behaviour of JavaScript's
`toLowerCase` on the ASCII error messages involved). -/
def charToLower (c : Char) : Char :=
  if 65 ≤ c.toNat && c.toNat ≤ 90 then Char.ofNat (c.toNat + 32) else c

/-- Embedding of `s.toLowerCase()` as a character list. -/
def lowerList (s : String) : List Char :=
  s.toList.map charToLower

/-- Embedding of `Channel.isCappedUnsupportedError` (channel.js lines
279-293): substring tests on the lowercased error message and code
name. -/
def isCappedUnsupportedError (message codeName : String) : Bool :=
  let m := lowerList message
  let c := lowerList codeName
  containsSeq "not capped".toList m || containsSeq "capped".toList m ||
  containsSeq "tailable".toList m || containsSeq "special".toList m ||
  containsSeq "unsupported".toList m ||
  containsSeq "commandnotsupported".toList c ||
  containsSeq "illegaloperation".toList c

/-- An index as created by `collection.createIndex` (channel.js line
268): key field, options `expireAfterSeconds` and `name`. -/
structure IndexSpec where
  name : String
  keyField : String
  expireAfterSeconds : Int
  deriving Repr, DecidableEq

/-- State of one named collection in the store. -/
structure CollState where
  capped : Bool
  docs : List Doc := []
  indexes : List IndexSpec := []
  deriving Repr, DecidableEq

/-- Embedding of `collection.createIndex(key, opts)`: a no-op success when an index
of the same name and definition already exists, an `IndexOptionsConflict`
error when the name exists with a different definition, and index
creation otherwise (MongoDB createIndexes semantics). -/
def createIndex (spec : IndexSpec) (idxs : List IndexSpec) :
    Except String (List IndexSpec) :=
  match idxs.find? (fun i => i.name == spec.name) with
  | some i => if i == spec then Except.ok idxs
              else Except.error "IndexOptionsConflict"
  | none => Except.ok (idxs ++ [spec])

/-- The TTL index spec used by the retention step (channel.js line 268):
key `{_ts: 1}`, options `{expireAfterSeconds, name: _mubsub_poll_ttl}`. -/
def ttlSpec (t : Int) : IndexSpec :=
  { name := "_mubsub_poll_ttl", keyField := "_ts", expireAfterSeconds := t }

/-- Embedding of `Channel.ensurePollingTtlIndex` (channel.js lines
260-270): `!pollTtlSeconds || pollTtlSeconds <= 0` (which over numbers
is `pollTtlSeconds ≤ 0`) resolves at once without touching the store;
otherwise the TTL index is created. -/
def ensurePollingTtlIndex (pollTtlSeconds : Int) (idxs : List IndexSpec) :
    Except String (List IndexSpec) :=
  if pollTtlSeconds ≤ 0 then Except.ok idxs
  else createIndex (ttlSpec pollTtlSeconds) idxs

/-- The document store: named collections. -/
structure Store where
  colls : List (String × CollState)
  deriving Repr, DecidableEq

/-- Look a collection up by name. -/
def Store.lookup (s : Store) (n : String) : Option CollState :=
  (s.colls.find? (fun p => p.1 == n)).map (fun p => p.2)

/-- The `NamespaceExists` error message the store raises when
`createCollection` hits an existing collection of the given name
(matched by `collectionExistsError`, channel.js lines 160-166). -/
def nsExistsMessage (n : String) : String :=
  "Collection " ++ n ++ " already exists."

/-- The error message built at channel.js line 176 for an explicit
capped-mode channel whose collection exists but is not capped. -/
def notCappedMessage (n : String) : String :=
  nsExistsMessage n ++ ", but it's NOT capped."

/-- Outcome of the `createCapped` promise chain, as it affects
`self.transport` and the store. -/
inductive TransportOutcome where
  /-- Assigns `self.transport = 'capped'`; `collection` emitted. -/
  | capped
  /-- Assigns `self.transport = 'polling'` over the same collection;
  `collection` emitted (auto fallback, channel.js lines 171-174). -/
  | polling
  /-- Runs `self.emit('error', ...)`: initialization stops, `collection` is
  never emitted, `transport` keeps its prior value. -/
  | fatal (msg : String)
  deriving Repr, DecidableEq

/-- Embedding of `Channel.createCapped`'s `create` flow (channel.js
lines 151-192) against the store.  A missing collection is created
capped (lines 152-158).  An existing collection raises
`NamespaceExists`; `isCapped()` then decides (lines 167-183): capped →
open it as the capped transport; not capped → in auto mode adopt the
same collection as the polling transport, otherwise emit the fatal
not-capped error. -/
def createCapped (mode : String) (store : Store) (name : String) :
    TransportOutcome × Store :=
  match store.lookup name with
  | none =>
    (TransportOutcome.capped,
     ⟨store.colls ++ [(name, { capped := true })]⟩)
  | some c =>
    if c.capped then (TransportOutcome.capped, store)
    else if mode == "auto" then (TransportOutcome.polling, store)
    else (TransportOutcome.fatal (notCappedMessage name), store)

/-- Embedding of `Channel.createPolling`'s `openCollection` flow
(channel.js lines 208-246): create a plain collection, or on
`NamespaceExists` open the existing one unchanged; in both cases run
`ensurePollingTtlIndex` before emitting `collection` (lines 214-220 and
235-241); a TTL failure is emitted as `error` instead. -/
def createPolling (pollTtlSeconds : Int) (store : Store) (name : String) :
    TransportOutcome × Store :=
  match store.lookup name with
  | none =>
    match ensurePollingTtlIndex pollTtlSeconds [] with
    | Except.ok idxs =>
      (TransportOutcome.polling,
       ⟨store.colls ++ [(name, { capped := false, indexes := idxs })]⟩)
    | Except.error e => (TransportOutcome.fatal e, store)
  | some c =>
    match ensurePollingTtlIndex pollTtlSeconds c.indexes with
    | Except.ok idxs =>
      (TransportOutcome.polling,
       ⟨store.colls.map (fun p =>
         if p.1 == name then (p.1, { p.2 with indexes := idxs }) else p)⟩)
    | Except.error e => (TransportOutcome.fatal e, store)

/-- The initial dispatch of `Channel.initializeTransport` (channel.js
lines 126-140): which collection creator runs, which listener starts,
and whether the listener may fall back to polling (`allowFallback`,
passed as `true` only in auto mode, line 137). -/
structure InitDispatch where
  creator : String
  listener : String
  allowFallback : Bool
  deriving Repr, DecidableEq

/-- Embedding of `Channel.initializeTransport` (channel.js lines
126-140). -/
def initializeTransport (mode : String) : InitDispatch :=
  if mode == "polling" then
    ⟨"createPolling", "startPollingListener", false⟩
  else if mode == "capped" then
    ⟨"createCapped", "startTailableListener", false⟩
  else
    ⟨"createCapped", "startTailableListener", true⟩

/-- The recovery predicate installed by `startTailableListener`
(channel.js lines 351-359): fall back to the polling transport exactly
when `allowFallback` was passed, the mode is auto, and the error is
classified as capped-unsupported. -/
def tailableFallbackTaken (allowFallback : Bool) (mode : String)
    (errMessage errCodeName : String) : Bool :=
  allowFallback && mode == "auto" &&
    isCappedUnsupportedError errMessage errCodeName

/-- The error MongoDB raises when a tailable cursor is opened on a
collection that is not capped. -/
def tailableOnPlainError : String :=
  "tailable cursor requested on non capped collection"

/-- The methods defined on the `Channel` class body (channel.js lines
4-533), in source order. -/
def channelMethods : List String :=
  ["constructor", "close", "publish", "subscribe", "initializeTransport",
   "createCapped", "createPolling", "ensurePollingTtlIndex",
   "isCappedUnsupportedError", "startTailableListener",
   "startPollingListener", "latest", "handle", "ready"]

/-- The methods `Channel` inherits from Node's `events.EventEmitter`. -/
def eventEmitterMethods : List String :=
  ["addListener", "on", "once", "removeListener", "off",
   "removeAllListeners", "setMaxListeners", "getMaxListeners",
   "listeners", "rawListeners", "emit", "listenerCount",
   "prependListener", "prependOnceListener", "eventNames"]

/-- The fixed delay before the broken-cursor branch runs
(channel.js line 329). -/
def brokenCursorDelayMs : Nat := 1000

/-- The error message emitted for a broken cursor (channel.js line 325). -/
def brokenCursorErrorMessage : String := "Mubsub: broken cursor."

/-- What the broken-cursor branch does after emitting the error. -/
inductive BrokenCursorAction where
  /-- With `recreate` disabled: nothing further runs; the channel never
  delivers again. -/
  | stopPermanently
  /-- With `recreate` enabled: the code invokes
  `self.<firstMethod>().<secondMethod>(latest)` (channel.js line 327). -/
  | invokeRecreate (firstMethod secondMethod : String)
  deriving Repr, DecidableEq

/-- Embedding of the no-document branch of the tailable next-callback
(channel.js lines 323-330): after the fixed delay the broken-cursor
error is emitted; with `recreate` enabled the code then runs
`self.create().listen(latest)`, naming the methods `create` and
`listen`. -/
def brokenCursorAction (recreate : Bool) : BrokenCursorAction :=
  if recreate then BrokenCursorAction.invokeRecreate "create" "listen"
  else BrokenCursorAction.stopPermanently

/-- The events dispatched when a polling fetch that was already in
flight completes.  The completion continuation (channel.js lines
391-404) does not consult `self.closed`, so its behaviour is the same
whether or not `close()` ran while the fetch was outstanding; the
parameter records the flag's value at completion time only to make
statements about the close race explicit. -/
def inflightFetchCompletion (_closedAtCompletion : Bool)
    (fetched : List Doc) (w : Nat) (pollInterval : Int) : PollTick :=
  pollOnFetchSuccess fetched w pollInterval

/-- The bootstrap lookup issued by `startPollingListener` (channel.js
lines 375-377): always `insertDummy: false`. -/
def startPollingBootstrap (latestArg : Option Nat) (coll : List Doc) :
    LatestResult :=
  latest latestArg false coll

/-! ### Supporting lemmas -/

theorem init_le_foldl_max : ∀ (xs : List Nat) (i : Nat), i ≤ xs.foldl max i
  | [], i => le_refl i
  | x :: xs, i => le_trans (le_max_left i x) (init_le_foldl_max xs (max i x))

theorem le_foldl_max : ∀ (xs : List Nat) (i a : Nat), a ∈ xs → a ≤ xs.foldl max i
  | [], _, _, h => absurd h (List.not_mem_nil _)
  | x :: xs, i, a, h => by
    rcases List.mem_cons.mp h with rfl | hmem
    · exact le_trans (le_max_right i a) (init_le_foldl_max xs (max i a))
    · exact le_foldl_max xs (max i x) a hmem

theorem mem_id_lt_nextId {d : Doc} {l : List Doc} (h : d ∈ l) :
    d._id < nextId l := by
  have hmem : d._id ∈ l.map (fun d => d._id) := List.mem_map_of_mem _ h
  have := le_foldl_max (l.map (fun d => d._id)) 0 d._id hmem
  unfold nextId
  omega

theorem nextId_pos (l : List Doc) : 0 < nextId l := Nat.succ_pos _

theorem maxByIdAbove_none : ∀ (i : Nat) (l : List Doc),
    maxByIdAbove i l = none → ∀ d ∈ l, d._id ≤ i
  | _, [], _, d, hd => absurd hd (List.not_mem_nil d)
  | i, x :: xs, h, d, hd => by
    simp only [maxByIdAbove] at h
    cases hr : maxByIdAbove i xs with
    | none =>
      rw [hr] at h
      by_cases hx : i < x._id
      · simp [hx] at h
      · rcases List.mem_cons.mp hd with rfl | hmem
        · omega
        · exact maxByIdAbove_none i xs hr d hmem
    | some m =>
      rw [hr] at h
      by_cases hx : i < x._id <;> by_cases hm : m._id < x._id <;>
        simp [hx, hm] at h

theorem maxByIdAbove_mem : ∀ (i : Nat) (l : List Doc) (m : Doc),
    maxByIdAbove i l = some m → m ∈ l
  | _, [], _, h => by simp [maxByIdAbove] at h
  | i, x :: xs, m, h => by
    simp only [maxByIdAbove] at h
    cases hr : maxByIdAbove i xs with
    | none =>
      rw [hr] at h
      by_cases hx : i < x._id
      · simp only [hx, if_true] at h
        rcases Option.some.inj h with rfl
        exact List.mem_cons_self x xs
      · simp [hx] at h
    | some m' =>
      rw [hr] at h
      have hmem := maxByIdAbove_mem i xs m' hr
      by_cases hx : i < x._id
      · by_cases hm : m'._id < x._id
        · simp only [hx, hm, if_true] at h
          rcases Option.some.inj h with rfl
          exact List.mem_cons_self x xs
        · simp only [hx, hm, if_true, if_false] at h
          rcases Option.some.inj h with rfl
          exact List.mem_cons_of_mem x hmem
      · simp only [hx, if_false] at h
        rcases Option.some.inj h with rfl
        exact List.mem_cons_of_mem x hmem

theorem maxByIdAbove_gt : ∀ (i : Nat) (l : List Doc) (m : Doc),
    maxByIdAbove i l = some m → i < m._id
  | _, [], _, h => by simp [maxByIdAbove] at h
  | i, x :: xs, m, h => by
    simp only [maxByIdAbove] at h
    cases hr : maxByIdAbove i xs with
    | none =>
      rw [hr] at h
      by_cases hx : i < x._id
      · simp only [hx, if_true] at h
        rcases Option.some.inj h with rfl
        exact hx
      · simp [hx] at h
    | some m' =>
      rw [hr] at h
      have hgt := maxByIdAbove_gt i xs m' hr
      by_cases hx : i < x._id
      · by_cases hm : m'._id < x._id <;>
          · simp only [hx, hm, if_true, if_false] at h
            rcases Option.some.inj h with rfl
            omega
      · simp only [hx, if_false] at h
        rcases Option.some.inj h with rfl
        exact hgt

theorem maxByIdAbove_max : ∀ (i : Nat) (l : List Doc) (m : Doc),
    maxByIdAbove i l = some m → ∀ d ∈ l, i < d._id → d._id ≤ m._id
  | _, [], _, _, d, hd, _ => absurd hd (List.not_mem_nil d)
  | i, x :: xs, m, h, d, hd, hdi => by
    simp only [maxByIdAbove] at h
    cases hr : maxByIdAbove i xs with
    | none =>
      rw [hr] at h
      have hnone := maxByIdAbove_none i xs hr
      by_cases hx : i < x._id
      · simp only [hx, if_true] at h
        rcases Option.some.inj h with rfl
        rcases List.mem_cons.mp hd with rfl | hmem
        · exact le_refl _
        · have := hnone d hmem; omega
      · simp [hx] at h
    | some m' =>
      rw [hr] at h
      have hmax := maxByIdAbove_max i xs m' hr
      by_cases hx : i < x._id
      · by_cases hm : m'._id < x._id
        · simp only [hx, hm, if_true] at h
          rcases Option.some.inj h with rfl
          rcases List.mem_cons.mp hd with rfl | hmem
          · exact le_refl _
          · have := hmax d hmem hdi; omega
        · simp only [hx, hm, if_true, if_false] at h
          rcases Option.some.inj h with rfl
          rcases List.mem_cons.mp hd with rfl | hmem
          · omega
          · exact hmax d hmem hdi
      · simp only [hx, if_false] at h
        rcases Option.some.inj h with rfl
        rcases List.mem_cons.mp hd with rfl | hmem
        · omega
        · exact hmax d hmem hdi

theorem getLast?_mem_of_eq {l : List Doc} {d : Doc} (h : l.getLast? = some d) :
    d ∈ l := by
  rcases List.mem_getLast?_eq_getLast (Option.mem_def.mpr h) with ⟨hne, rfl⟩
  exact List.getLast_mem hne

theorem findNaturalDesc_mem {filt : Option Nat} {l : List Doc} {d : Doc}
    (h : findNaturalDesc filt l = some d) : d ∈ l := by
  cases filt with
  | none => exact getLast?_mem_of_eq h
  | some i =>
    simp only [findNaturalDesc] at h
    exact List.mem_of_mem_filter (getLast?_mem_of_eq h)

theorem latest_bound (insertDummy : Bool) (C0 : List Doc) :
    ∀ d ∈ C0, d._id ≤ (latest none insertDummy C0).watermark._id := by
  intro d hd
  cases hf : findNaturalDesc none C0 with
  | none =>
    simp only [findNaturalDesc] at hf
    rw [List.getLast?_eq_none_iff] at hf
    subst hf
    cases hd
  | some doc =>
    cases hm : maxByIdAbove doc._id C0 with
    | none =>
      have heq : latest none insertDummy C0 = ⟨doc, C0, false⟩ := by
        simp [latest, hf, hm]
      rw [heq]
      exact maxByIdAbove_none doc._id C0 hm d hd
    | some m =>
      have heq : latest none insertDummy C0 = ⟨m, C0, false⟩ := by
        simp [latest, hf, hm]
      rw [heq]
      have hgt := maxByIdAbove_gt doc._id C0 m hm
      have hmax := maxByIdAbove_max doc._id C0 m hm d hd
      by_cases hdi : doc._id < d._id
      · exact hmax hdi
      · show d._id ≤ m._id
        omega

theorem latest_watermark_lt_nextId (a : Option Nat) (b : Bool)
    (coll : List Doc) :
    (latest a b coll).watermark._id < nextId (latest a b coll).coll := by
  cases hf : findNaturalDesc a coll with
  | some doc =>
    cases hm : maxByIdAbove doc._id coll with
    | some m =>
      have heq : latest a b coll = ⟨m, coll, false⟩ := by
        simp [latest, hf, hm]
      rw [heq]
      exact mem_id_lt_nextId (maxByIdAbove_mem _ _ _ hm)
    | none =>
      have heq : latest a b coll = ⟨doc, coll, false⟩ := by
        simp [latest, hf, hm]
      rw [heq]
      exact mem_id_lt_nextId (findNaturalDesc_mem hf)
  | none =>
    cases b with
    | true =>
      have heq : latest a true coll =
          ⟨{ _id := nextId coll, dummy := true },
           coll ++ [{ _id := nextId coll, dummy := true }], true⟩ := by
        simp [latest, hf]
      rw [heq]
      exact mem_id_lt_nextId
        (List.mem_append_right coll (List.mem_singleton.mpr rfl))
    | false =>
      have heq : latest a false coll = ⟨{ _id := 0 }, coll, false⟩ := by
        simp [latest, hf]
      rw [heq]
      exact nextId_pos coll

theorem mem_insertById {a d : Doc} : ∀ {l : List Doc},
    a ∈ insertById d l ↔ a = d ∨ a ∈ l
  | [] => by simp [insertById]
  | x :: xs => by
    simp only [insertById]
    by_cases h : d._id ≤ x._id
    · simp [h, List.mem_cons]
    · simp only [h, if_false, List.mem_cons, mem_insertById (l := xs)]
      tauto

theorem mem_sortById {a : Doc} : ∀ {l : List Doc}, a ∈ sortById l ↔ a ∈ l
  | [] => Iff.rfl
  | x :: xs => by
    show a ∈ insertById x (sortById xs) ↔ _
    rw [mem_insertById, mem_sortById (l := xs), List.mem_cons]

theorem mem_pollFetch {d : Doc} {w : Nat} {coll : List Doc} :
    d ∈ pollFetch w coll ↔ d ∈ coll ∧ w < d._id := by
  simp [pollFetch, mem_sortById, List.mem_filter, cursorSelects]

theorem mem_tailableFetch {d : Doc} {w : Nat} {coll : List Doc} :
    d ∈ tailableFetch w coll ↔ d ∈ coll ∧ w < d._id := by
  simp [tailableFetch, List.mem_filter, cursorSelects]

theorem containsSeq_append_right (pat l₁ l₂ : List Char)
    (h : containsSeq pat l₂ = true) : containsSeq pat (l₁ ++ l₂) = true := by
  induction l₁ with
  | nil => simpa using h
  | cons a l₁ ih =>
    simp only [List.cons_append, containsSeq, Bool.or_eq_true]
    exact Or.inr ih

theorem notCappedMessage_marker (n : String) :
    strContains (notCappedMessage n) "NOT capped" = true := by
  have hbase : containsSeq "NOT capped".toList ", but it's NOT capped.".toList
      = true := by decide
  unfold strContains notCappedMessage nsExistsMessage
  have : ("Collection " ++ n ++ " already exists." ++
      ", but it's NOT capped.").toList
      = ("Collection " ++ n ++ " already exists.").toList ++
        ", but it's NOT capped.".toList := by
    simp [String.toList]
  rw [this]
  exact containsSeq_append_right _ _ _ hbase

theorem latest_no_insert (a : Option Nat) (coll : List Doc) :
    (latest a false coll).insertedDummy = false ∧
    (latest a false coll).coll = coll := by
  cases hf : findNaturalDesc a coll with
  | none => simp [latest, hf]
  | some doc =>
    cases hm : maxByIdAbove doc._id coll with
    | none => simp [latest, hf, hm]
    | some m => simp [latest, hf, hm]

theorem latest_insertedDummy_eq (a : Option Nat) (b : Bool)
    (coll : List Doc) (h : (latest a b coll).insertedDummy = true) :
    (latest a b coll).watermark
      = { _id := nextId coll, dummy := true } := by
  cases hf : findNaturalDesc a coll with
  | some doc =>
    cases hm : maxByIdAbove doc._id coll with
    | none => simp [latest, hf, hm] at h
    | some m => simp [latest, hf, hm] at h
  | none =>
    cases b with
    | true => simp [latest, hf]
    | false => simp [latest, hf] at h

theorem ensurePollingTtlIndex_pos {t : Int} (idxs : List IndexSpec)
    (ht : 0 < t)
    (hnoconf : ∀ i ∈ idxs, i.name = "_mubsub_poll_ttl" → i = ttlSpec t) :
    ∃ l, ensurePollingTtlIndex t idxs = Except.ok l ∧ ttlSpec t ∈ l ∧
      ensurePollingTtlIndex t l = Except.ok l := by
  have hnle : ¬ t ≤ 0 := by omega
  have hself : ∀ m : List IndexSpec,
      m.find? (fun i => i.name == (ttlSpec t).name) = some (ttlSpec t) →
      ensurePollingTtlIndex t m = Except.ok m := by
    intro m hm
    unfold ensurePollingTtlIndex createIndex
    rw [if_neg hnle, hm]
    simp
  cases hf : idxs.find? (fun i => i.name == (ttlSpec t).name) with
  | some i =>
    have himem := List.mem_of_find?_eq_some hf
    have hiname := List.find?_some hf
    have hieq : i = ttlSpec t := by
      apply hnoconf i himem
      have hb : (i.name == (ttlSpec t).name) = true := hiname
      simpa [ttlSpec] using hb
    exact ⟨idxs, hself idxs (by rw [hf, hieq]), hieq ▸ himem,
      hself idxs (by rw [hf, hieq])⟩
  | none =>
    have hfind : (idxs ++ [ttlSpec t]).find?
        (fun i => i.name == (ttlSpec t).name) = some (ttlSpec t) := by
      rw [List.find?_append, hf]
      simp
    have hok : ensurePollingTtlIndex t idxs
        = Except.ok (idxs ++ [ttlSpec t]) := by
      unfold ensurePollingTtlIndex createIndex
      rw [if_neg hnle, hf]
    exact ⟨idxs ++ [ttlSpec t], hok,
      List.mem_append_right idxs (List.mem_singleton.mpr rfl),
      hself _ hfind⟩

/-! ### Claim theorems -/

/-- C1: for a channel created with explicit capped (bounded) mode whose
collection already exists but is not capped, `createCapped` reports a
fatal error whose message contains the not-capped marker, the transport
outcome is not polling, capped mode starts the tailable listener with
the fallback flag off, and the listener's recovery predicate never
falls back to polling; so the transport state is never set to
polling. -/
theorem capped_mode_existing_plain_fatal (store : Store) (name : String)
    (c : CollState) (hlook : store.lookup name = some c)
    (hcap : c.capped = false) :
    createCapped "capped" store name
      = (TransportOutcome.fatal (notCappedMessage name), store) ∧
    strContains (notCappedMessage name) "NOT capped" = true ∧
    (createCapped "capped" store name).1 ≠ TransportOutcome.polling ∧
    initializeTransport "capped"
      = ⟨"createCapped", "startTailableListener", false⟩ ∧
    (∀ em cn, tailableFallbackTaken false "capped" em cn = false) := by
  have h1 : createCapped "capped" store name
      = (TransportOutcome.fatal (notCappedMessage name), store) := by
    simp [createCapped, hlook, hcap]
  refine ⟨h1, notCappedMessage_marker name, ?_, by decide, ?_⟩
  · rw [h1]
    intro h
    cases h
  · intro em cn
    simp [tailableFallbackTaken]

/-- Witness for C1 at a concrete store holding a plain collection named
mubsub. -/
theorem capped_mode_existing_plain_fatal_witness :
    (Store.lookup ⟨[("mubsub", { capped := false })]⟩ "mubsub"
      = some { capped := false }) ∧
    ({ capped := false : CollState }).capped = false ∧
    (createCapped "capped" ⟨[("mubsub", { capped := false })]⟩ "mubsub"
      = (TransportOutcome.fatal (notCappedMessage "mubsub"),
         ⟨[("mubsub", { capped := false })]⟩) ∧
     strContains (notCappedMessage "mubsub") "NOT capped" = true ∧
     (createCapped "capped" ⟨[("mubsub", { capped := false })]⟩ "mubsub").1
        ≠ TransportOutcome.polling ∧
     initializeTransport "capped"
        = ⟨"createCapped", "startTailableListener", false⟩ ∧
     (∀ em cn, tailableFallbackTaken false "capped" em cn = false)) :=
  ⟨by decide, rfl,
   capped_mode_existing_plain_fatal ⟨[("mubsub", { capped := false })]⟩
     "mubsub" { capped := false } (by decide) rfl⟩

/-- C3: in the broken-cursor branch the code with `recreate` enabled
invokes `self.create().listen(latest)` (channel.js line 327), but the
`Channel` class defines no `create` or `listen` method and inherits
none from `EventEmitter`, so the recreate path throws a `TypeError`
instead of re-running the transport selector; with `recreate` disabled
the channel stops permanently.  `recreate` defaults to true. -/
theorem broken_cursor_recreate_dead_reference :
    brokenCursorAction true
      = BrokenCursorAction.invokeRecreate "create" "listen" ∧
    "create" ∉ channelMethods ∧ "listen" ∉ channelMethods ∧
    "create" ∉ eventEmitterMethods ∧ "listen" ∉ eventEmitterMethods ∧
    brokenCursorAction false = BrokenCursorAction.stopPermanently ∧
    brokenCursorDelayMs = 1000 ∧
    brokenCursorErrorMessage = "Mubsub: broken cursor." ∧
    (normalizeOptions {}).recreate = true := by
  decide

/-- C5: the polling listener's bootstrap always runs with
`insertDummy: false` and never inserts an anchor document; on an empty
collection the initial watermark is the sentinel `{_id: 0}`; every
store-assigned identifier is positive, so every envelope inserted
afterwards qualifies as new under the polling filter. -/
theorem polling_bootstrap_no_anchor :
    (∀ latestArg coll, (startPollingBootstrap latestArg coll).insertedDummy
        = false ∧ (startPollingBootstrap latestArg coll).coll = coll) ∧
    (startPollingBootstrap none []).watermark = { _id := 0 } ∧
    (∀ coll, 0 < nextId coll) ∧
    (∀ d : Doc, 0 < d._id → cursorSelects 0 d = true) := by
  refine ⟨?_, rfl, nextId_pos, ?_⟩
  · intro latestArg coll
    exact latest_no_insert latestArg coll
  · intro d hd
    simpa [cursorSelects] using hd

/-- Witness for C5 at a store-assigned identifier. -/
theorem polling_bootstrap_no_anchor_witness :
    (0 < (⟨3, some "a", some "x", none, false⟩ : Doc)._id) ∧
    cursorSelects 0 ⟨3, some "a", some "x", none, false⟩ = true :=
  ⟨by decide,
   polling_bootstrap_no_anchor.2.2.2 ⟨3, some "a", some "x", none, false⟩
     (by decide)⟩

/-- C6: on an open channel with a live connection, a polling fetch
error is reported on the `error` event and the next poll is scheduled
with the same constant `pollInterval` as in the success case; a tick
that starts with the channel closed or the connection destroyed emits
nothing and schedules nothing. -/
theorem polling_fetch_error_retries (coll : List Doc) (e : String)
    (fe : Option String) (w : Nat) (i : Int) (cl de : Bool) :
    (pollTick false false coll (some e) w i).reschedule = some i ∧
    ("error", Payload.err e) ∈ (pollTick false false coll (some e) w i).emits ∧
    (pollTick false false coll none w i).reschedule = some i ∧
    pollTick true de coll fe w i
      = { emits := [], watermark := w, reschedule := none } ∧
    pollTick cl true coll fe w i
      = { emits := [], watermark := w, reschedule := none } := by
    refine ⟨rfl, ?_, rfl, rfl, ?_⟩
    · exact List.mem_singleton.mpr rfl
    · cases cl <;> rfl

/-- C9: `publish` and `ready` never consult the `closed` flag: on a
channel that has reached readiness (`listening` set), a publish issued
after `close()` behaves exactly as before close, inserting the envelope
and invoking the caller's callback with the assigned identifier, or
with the insertion error. -/
theorem publish_ignores_closed (c : Channel) (coll : List Doc)
    (e : String) (m : Option String) (ts : Nat) (ie : Option String)
    (er : String) (hlist : c.listening = some coll) :
    publish (Channel.close c) e m ts ie = publish c e m ts ie ∧
    publish (Channel.close c) e m ts none
      = PublishResult.inserted
          (coll ++ [{ _id := nextId coll, event := some e, message := m,
                      _ts := some ts }]) (nextId coll) ∧
    publish (Channel.close c) e m ts (some er)
      = PublishResult.callbackError er := by
  have hcl : (Channel.close c).listening = some coll := hlist
  cases ie with
  | none => exact ⟨by simp [publish, hcl, hlist], by simp [publish, hcl],
      by simp [publish, hcl]⟩
  | some x => exact ⟨by simp [publish, hcl, hlist], by simp [publish, hcl],
      by simp [publish, hcl]⟩

/-- Witness for C9 on a concrete ready channel. -/
theorem publish_ignores_closed_witness :
    (({ listening := some [] } : Channel).listening = some []) ∧
    publish (Channel.close { listening := some [] }) "a" (some "x") 7 none
      = PublishResult.inserted
          [{ _id := 1, event := some "a", message := some "x",
             _ts := some 7 }] 1 :=
  ⟨rfl, (publish_ignores_closed { listening := some [] } [] "a" (some "x")
    7 none "oops" rfl).2.1⟩

/-- C10: a document whose event field is the literal string `message`
is emitted to the `message` event name twice — once for its event name
and once for the any-event wildcard — so a subscriber registered for
`message` (also what `subscribe` registers when the event argument is
omitted) receives its payload twice. -/
theorem message_name_double_delivery (i : Nat) (m : Option String)
    (ts : Option Nat) (dm : Bool) :
    subscribeEventName none = "message" ∧
    dispatchDoc ⟨i, some "message", m, ts, dm⟩
      = [("message", Payload.msg m), ("message", Payload.msg m),
         ("document", Payload.doc ⟨i, some "message", m, ts, dm⟩)] ∧
    deliveriesTo (dispatchDoc ⟨i, some "message", m, ts, dm⟩) "message"
      = [Payload.msg m, Payload.msg m] := by
  refine ⟨rfl, rfl, ?_⟩
  simp [deliveriesTo, dispatchDoc, List.filter]

/-- C7: an unset `pollTtlSeconds` defaults to 0; for `t ≤ 0` the
retention step performs no store operation and returns the index list
unchanged; for `t > 0` (absent an externally created conflicting index
of the same name) it ensures the expiry index named `_mubsub_poll_ttl`
on the `_ts` field with `expireAfterSeconds = t`, and re-running it on
the resulting collection is a no-op, so repeated channel opens are
idempotent. -/
theorem retention_ttl_policy (t : Int) (idxs : List IndexSpec)
    (hnoconf : ∀ i ∈ idxs, i.name = "_mubsub_poll_ttl" → i = ttlSpec t) :
    (normalizeOptions {}).pollTtlSeconds = 0 ∧
    (t ≤ 0 → ensurePollingTtlIndex t idxs = Except.ok idxs) ∧
    (0 < t → ∃ l, ensurePollingTtlIndex t idxs = Except.ok l ∧
      ttlSpec t ∈ l ∧ (ttlSpec t).name = "_mubsub_poll_ttl" ∧
      (ttlSpec t).keyField = "_ts" ∧ (ttlSpec t).expireAfterSeconds = t ∧
      ensurePollingTtlIndex t l = Except.ok l) := by
  refine ⟨rfl, ?_, ?_⟩
  · intro hle
    simp [ensurePollingTtlIndex, hle]
  · intro hpos
    rcases ensurePollingTtlIndex_pos idxs hpos hnoconf with ⟨l, hok, hmem, hid⟩
    exact ⟨l, hok, hmem, rfl, rfl, rfl, hid⟩

/-- Witness for C7: a negative setting is a no-op, and a positive
setting on a fresh collection creates exactly the TTL index and is
idempotent. -/
theorem retention_ttl_policy_witness :
    ((-3 : Int) ≤ 0 ∧ ensurePollingTtlIndex (-3) [] = Except.ok []) ∧
    ((0 : Int) < 2 ∧ ∃ l, ensurePollingTtlIndex 2 [] = Except.ok l ∧
      ttlSpec 2 ∈ l ∧ (ttlSpec 2).name = "_mubsub_poll_ttl" ∧
      (ttlSpec 2).keyField = "_ts" ∧ (ttlSpec 2).expireAfterSeconds = 2 ∧
      ensurePollingTtlIndex 2 l = Except.ok l) :=
  ⟨⟨by decide, (retention_ttl_policy (-3) [] (by simp)).2.1 (by decide)⟩,
   ⟨by decide, (retention_ttl_policy 2 [] (by simp)).2.2 (by decide)⟩⟩

/-- C8 counterexample: the claim that after `close()` no event is ever
emitted and in-flight results are discarded is false — a polling fetch
in flight at close time completes through a continuation that never
consults `closed`, dispatching its documents and re-arming the timer. -/
theorem close_discards_inflight_cex :
    (Channel.close { closed := false, pollingTimer := some 5,
                     listening := some [] }).closed = true ∧
    (inflightFetchCompletion true [⟨1, some "a", some "x", none, false⟩]
        0 1000).emits
      = [("a", Payload.msg (some "x")), ("message", Payload.msg (some "x")),
         ("document", Payload.doc ⟨1, some "a", some "x", none, false⟩)] ∧
    (inflightFetchCompletion true [⟨1, some "a", some "x", none, false⟩]
        0 1000).reschedule = some 1000 := by
  decide

/-- C8 amended: `close()` sets the closed flag and cancels any pending
poll timer; every `handle`-guarded callback is a no-op afterwards and a
poll tick that starts after close emits nothing and schedules nothing;
however, a polling fetch already in flight completes exactly as if the
channel were open — its documents are dispatched and its timer re-armed
once — rather than having its results discarded. -/
theorem close_lifecycle_amended (c : Channel) (coll fetched : List Doc)
    (fe err : Option String) (w : Nat) (i : Int) (de exitB : Bool)
    (rr : Option Bool) :
    (Channel.close c).closed = true ∧
    (Channel.close c).pollingTimer = none ∧
    handle true de exitB rr err = HandleOutcome.noop ∧
    pollTick true de coll fe w i
      = { emits := [], watermark := w, reschedule := none } ∧
    inflightFetchCompletion true fetched w i
      = pollOnFetchSuccess fetched w i :=
  ⟨rfl, rfl, rfl, rfl, rfl⟩

/-- C4: the bootstrap watermark is at least the identifier of every
document already in the collection, and both transports fetch only
documents with identifiers strictly above the watermark; hence a
subscriber registered after N envelopes were published receives none of
them, and the anchor/dummy document adopted as the watermark during
bounded bootstrap is never fetched and, carrying no event name, would
dispatch to no named event anyway. -/
theorem no_replay_bootstrap (insertDummy : Bool) (C0 Clater : List Doc) :
    (∀ d ∈ C0, d._id ≤ (latest none insertDummy C0).watermark._id) ∧
    (∀ d ∈ pollFetch (latest none insertDummy C0).watermark._id Clater,
      (latest none insertDummy C0).watermark._id < d._id) ∧
    (∀ d ∈ tailableFetch (latest none insertDummy C0).watermark._id Clater,
      (latest none insertDummy C0).watermark._id < d._id) ∧
    (∀ d ∈ C0,
      d ∉ pollFetch (latest none insertDummy C0).watermark._id Clater ∧
      d ∉ tailableFetch (latest none insertDummy C0).watermark._id Clater) ∧
    ((latest none insertDummy C0).watermark
        ∉ pollFetch (latest none insertDummy C0).watermark._id Clater ∧
     (latest none insertDummy C0).watermark
        ∉ tailableFetch (latest none insertDummy C0).watermark._id Clater) ∧
    ((latest none insertDummy C0).insertedDummy = true →
      dispatchDoc (latest none insertDummy C0).watermark
        = [("document",
            Payload.doc (latest none insertDummy C0).watermark)]) := by
  refine ⟨latest_bound insertDummy C0, ?_, ?_, ?_, ⟨?_, ?_⟩, ?_⟩
  · intro d hd
    exact (mem_pollFetch.mp hd).2
  · intro d hd
    exact (mem_tailableFetch.mp hd).2
  · intro d hd
    have hle := latest_bound insertDummy C0 d hd
    constructor
    · intro hmem
      have := (mem_pollFetch.mp hmem).2
      omega
    · intro hmem
      have := (mem_tailableFetch.mp hmem).2
      omega
  · intro hmem
    have := (mem_pollFetch.mp hmem).2
    omega
  · intro hmem
    have := (mem_tailableFetch.mp hmem).2
    omega
  · intro hdum
    rw [latest_insertedDummy_eq none insertDummy C0 hdum]
    rfl

/-- Witness for C4: one pre-published envelope is below the bootstrap
watermark and is never fetched from a later collection state. -/
theorem no_replay_bootstrap_witness :
    ((⟨1, some "a", some "x", none, false⟩ : Doc)
      ∈ ([⟨1, some "a", some "x", none, false⟩] : List Doc)) ∧
    (⟨1, some "a", some "x", none, false⟩ : Doc)._id
      ≤ (latest none true [⟨1, some "a", some "x", none, false⟩]).watermark._id ∧
    (⟨1, some "a", some "x", none, false⟩ : Doc)
      ∉ pollFetch
        (latest none true [⟨1, some "a", some "x", none, false⟩]).watermark._id
        [⟨1, some "a", some "x", none, false⟩, ⟨2, some "b", some "y", none, false⟩] :=
  ⟨by decide,
   (no_replay_bootstrap true [⟨1, some "a", some "x", none, false⟩]
      [⟨1, some "a", some "x", none, false⟩,
       ⟨2, some "b", some "y", none, false⟩]).1 _ (by decide),
   ((no_replay_bootstrap true [⟨1, some "a", some "x", none, false⟩]
      [⟨1, some "a", some "x", none, false⟩,
       ⟨2, some "b", some "y", none, false⟩]).2.2.2.1 _ (by decide)).1⟩

/-- C2 (code bug): for a mode=auto channel whose collection already
exists and is not capped, the polling transport is never reached.
`createCapped` adopts the collection but only writes the never-read
`transport` field (channel.js lines 171-174), while the listener that
auto mode already started is the tailable one (line 137).  Its
bootstrap `latest` call succeeds on a plain collection (a plain
reverse-natural find and a dummy insert both work — `latest` is total
here), so the bootstrap handle (line 310) — the only place the fallback
recovery that calls `createPolling().startPollingListener` (lines
351-359) is installed — runs its callback with no error, never
consulting the recovery.  The tailable-cursor failure instead reaches
`next` (line 320), a handle built with no exit flag and no recovery:
the error is emitted raw and the callback still runs with no document,
landing in the broken-cursor branch, which with the default
`recreate = true` invokes the nonexistent `create`/`listen` methods
(a `TypeError`) and with `recreate = false` stops permanently.  So the
retention step never runs, no polling listener starts, and a
post-subscription publish is never delivered — contrary to the claim,
the spec, and the repository's own fallback test
(test/channel.js, "falls back to polling in auto mode on uncapped
collections"). -/
theorem auto_mode_existing_plain_dead_end (store : Store) (name : String)
    (c : CollState) (rr : Option Bool)
    (hlook : store.lookup name = some c) (hcap : c.capped = false) :
    createCapped "auto" store name = (TransportOutcome.polling, store) ∧
    initializeTransport "auto"
      = ⟨"createCapped", "startTailableListener", true⟩ ∧
    handle false false true rr none = HandleOutcome.callbackRun ∧
    handle false false false none (some tailableOnPlainError)
      = HandleOutcome.emitErrorThenCallback tailableOnPlainError ∧
    brokenCursorAction true
      = BrokenCursorAction.invokeRecreate "create" "listen" ∧
    ("create" ∉ channelMethods ∧ "listen" ∉ channelMethods) ∧
    brokenCursorAction false = BrokenCursorAction.stopPermanently := by
  refine ⟨by simp [createCapped, hlook, hcap], by decide, rfl, rfl,
    by decide, by decide, by decide⟩

/-- Witness for C2 at a concrete store holding a plain collection
named mubsub. -/
theorem auto_mode_existing_plain_dead_end_witness :
    (Store.lookup ⟨[("mubsub", { capped := false })]⟩ "mubsub"
      = some { capped := false }) ∧
    ({ capped := false : CollState }).capped = false ∧
    (createCapped "auto" ⟨[("mubsub", { capped := false })]⟩ "mubsub"
      = (TransportOutcome.polling, ⟨[("mubsub", { capped := false })]⟩) ∧
     handle false false true (some false) none
       = HandleOutcome.callbackRun ∧
     handle false false false none (some tailableOnPlainError)
       = HandleOutcome.emitErrorThenCallback tailableOnPlainError ∧
     brokenCursorAction true
       = BrokenCursorAction.invokeRecreate "create" "listen" ∧
     "create" ∉ channelMethods) :=
  ⟨by decide, rfl,
   (auto_mode_existing_plain_dead_end ⟨[("mubsub", { capped := false })]⟩
      "mubsub" { capped := false } (some false) (by decide) rfl).1,
   (auto_mode_existing_plain_dead_end ⟨[("mubsub", { capped := false })]⟩
      "mubsub" { capped := false } (some false) (by decide) rfl).2.2.1,
   (auto_mode_existing_plain_dead_end ⟨[("mubsub", { capped := false })]⟩
      "mubsub" { capped := false } (some false) (by decide) rfl).2.2.2.1,
   (auto_mode_existing_plain_dead_end ⟨[("mubsub", { capped := false })]⟩
      "mubsub" { capped := false } (some false) (by decide) rfl).2.2.2.2.1,
   ((auto_mode_existing_plain_dead_end ⟨[("mubsub", { capped := false })]⟩
      "mubsub" { capped := false } (some false) (by decide) rfl).2.2.2.2.2.1).1⟩

end Mubsub
